import Mathlib

/-!
Verification development for the SimSpec repository (three Python scripts:
`extract_frames.py`, `simspec_test_harness.py`, `generate_report.py`).

The Python code is shallowly embedded: pure fragments become Lean
functions, the wall clock and the decoded video stream become explicit
oracle parameters, machine floats are modelled by rationals, and fallible
code returns `Option` / `Except`.  Python string primitives (`in`,
`split`, `lower`, `strip`, `endswith`, `sorted`) are modelled on
`List Char` with the semantics of the CPython builtins.
-/

namespace SimSpec

/-! ## Python string primitives -/

/-- Model of Python `needle in hay` (substring containment). -/
def listContains (needle : List Char) : List Char → Bool
  | [] => needle.isEmpty
  | c :: rest => needle.isPrefixOf (c :: rest) || listContains needle rest

/-- Model of Python `needle in hay` on strings. -/
def pyInStr (needle hay : String) : Bool :=
  listContains needle.data hay.data

/-- Model of Python `s.lower()` (the texts involved are ASCII). -/
def pyLower (s : String) : String :=
  (s.data.map Char.toLower).asString

/-- Model of Python `s.endswith(suffix)`. -/
def pyEndsWith (s suffix : String) : Bool :=
  suffix.data.reverse.isPrefixOf s.data.reverse

/-- Fuel-driven worker for `pySplit`; the fuel is the length of the
remaining text, which bounds the recursion because the separator used by
the repository is never empty. -/
def pySplitAux (sep : List Char) : ℕ → List Char → List Char → List (List Char)
  | 0, rest, acc => [acc.reverse ++ rest]
  | fuel + 1, l, acc =>
    match l with
    | [] => [acc.reverse]
    | c :: cs =>
      if sep.isPrefixOf (c :: cs) then
        acc.reverse :: pySplitAux sep fuel ((c :: cs).drop sep.length) []
      else
        pySplitAux sep fuel cs (c :: acc)

/-- Model of Python `s.split(sep)` for a non-empty separator:
non-overlapping left-to-right matches, keeping empty pieces. -/
def pySplit (s sep : String) : List String :=
  (pySplitAux sep.data s.data.length s.data []).map List.asString

/-- Model of Python `s.strip()` (drop whitespace from both ends). -/
def pyStrip (s : String) : String :=
  (((s.data.dropWhile Char.isWhitespace).reverse.dropWhile Char.isWhitespace).reverse).asString

/-- Model of Python `int(q)` on a rational: truncation toward zero. -/
def pyInt (q : ℚ) : ℤ :=
  if 0 ≤ q then ⌊q⌋ else -⌊-q⌋

/-- Insertion of a string into a sorted list, ordering by code points as
Python `sorted` does. -/
def lexLe : List Char → List Char → Bool
  | [], _ => true
  | _ :: _, [] => false
  | a :: as, b :: bs => a.toNat < b.toNat || (a == b && lexLe as bs)

/-- Boolean lexicographic order on strings (Python string `<=`). -/
def strLe (a b : String) : Bool :=
  lexLe a.data b.data

/-- Insert into an already sorted list (helper for `pySorted`). -/
def insertSorted (x : String) : List String → List String
  | [] => [x]
  | y :: ys => if strLe x y then x :: y :: ys else y :: insertSorted x ys

/-- Model of Python `sorted` on strings (stable, ascending). -/
def pySorted : List String → List String
  | [] => []
  | x :: xs => insertSorted x (pySorted xs)

/-! ## Frame Sampler (`extract_frames.py`)

`extract_frames_from_video` reads `fps` from the container, computes
`frame_interval = int(fps * interval_seconds)` (line 41) and then walks
the decoded stream, saving the frame whenever
`frame_count % frame_interval == 0` (line 52).  The decoded stream is
abstracted by the number `remaining` of frames it still yields; the
result is the list of source frame indices that get written (the
`frame_number` field of the records appended at lines 61–65), or the
`ZeroDivisionError` that Python raises at line 52 when the stride is 0. -/

/-- Stride computation of `extract_frames.py` line 41:
`frame_interval = int(fps * interval_seconds)`. -/
def frame_interval (fps interval_seconds : ℚ) : ℤ :=
  pyInt (fps * interval_seconds)

/-- The sampling loop of `extract_frames.py` lines 46–69, started with
`sampler_loop s 0 N` for a stream of `N` decodable frames: returns the
indices of the extracted frames, or the `ZeroDivisionError` raised by
`frame_count % 0`. -/
def sampler_loop (s : ℤ) : ℕ → ℕ → Except String (List ℕ)
  | _, 0 => Except.ok []
  | c, n + 1 =>
    if s = 0 then Except.error "ZeroDivisionError"
    else
      match sampler_loop s (c + 1) n with
      | Except.error e => Except.error e
      | Except.ok rest =>
          Except.ok (if (c : ℤ) % s = 0 then c :: rest else rest)

/-- Whole-sampler composition: stride from `fps` and `interval`, then the
loop over a stream of `N` frames. -/
def extract_frames (fps interval_seconds : ℚ) (N : ℕ) : Except String (List ℕ) :=
  sampler_loop (frame_interval fps interval_seconds) 0 N

/-! ### Sampler lemmas -/

/-- The extraction condition of line 52, `frame_count % frame_interval == 0`,
as a Boolean predicate on source frame indices. -/
def hitsStride (s : ℤ) (k : ℕ) : Bool :=
  decide ((k : ℤ) % s = 0)

lemma sampler_loop_filter (s : ℤ) (hs : s ≠ 0) :
    ∀ (n c : ℕ), sampler_loop s c n =
      Except.ok ((List.range' c n).filter (hitsStride s)) := by
  intro n
  induction n with
  | zero => intro c; simp [sampler_loop]
  | succ n ih =>
    intro c
    rw [List.range'_succ, List.filter_cons]
    simp only [sampler_loop, if_neg hs, ih (c + 1)]
    by_cases h : (c : ℤ) % s = 0 <;> simp [hitsStride, h]

lemma countP_range_succ_multiples (s : ℕ) :
    ∀ N : ℕ, (List.range (N + 1)).countP (hitsStride (s : ℤ)) = N / s + 1 := by
  have hmod : ∀ k : ℕ, (hitsStride (s : ℤ) k = true) ↔ s ∣ k := by
    intro k
    rw [hitsStride, decide_eq_true_eq, ← Int.natCast_mod, Int.natCast_eq_zero]
    exact Nat.dvd_iff_mod_eq_zero.symm
  intro N
  induction N with
  | zero =>
    have h1 : List.range 1 = [0] := rfl
    rw [h1, List.countP_cons, List.countP_nil]
    simp [hmod 0]
  | succ N ih =>
    rw [List.range_succ, List.countP_append, ih, List.countP_cons, List.countP_nil,
      Nat.succ_div]
    by_cases h : s ∣ N + 1
    · simp [hmod (N + 1), h]
    · simp [hmod (N + 1), h]

/-! ### Claim C1 -/

/-- C1 counterexample: the stride is computed with `int(...)` (truncation),
not `round(...)`.  At `fps = 29.97`, `interval = 3` the code's stride is 89
while `round(fps × interval) = 90`; at `fps = 0.7`, `interval = 1` the
code's stride is 0, falsifying "stride is at least 1 even when F × I < 1". -/
theorem C1_round_counterexample :
    frame_interval (2997 / 100) 3 = 89 ∧ round ((2997 / 100 : ℚ) * 3) = 90 ∧
    frame_interval (7 / 10) 1 = 0 ∧ ¬ (1 ≤ frame_interval (7 / 10) 1) := by
  refine ⟨?_, ?_, ?_, ?_⟩
  · norm_num [frame_interval, pyInt]
  · rw [round_eq]; norm_num
  · norm_num [frame_interval, pyInt]
  · norm_num [frame_interval, pyInt]

/-- C1 amended: for nonnegative frames-per-second `F` and interval `I` the
frame stride computed by the Frame Sampler equals `⌊F × I⌋` (Python `int`
truncation), not `round(F × I)`; whenever `F × I < 1` the stride is 0 —
not at least 1 — and the sampling loop then raises `ZeroDivisionError` on
any non-empty stream. -/
theorem C1_stride_trunc (F I : ℚ) (hF : 0 ≤ F) (hI : 0 ≤ I) :
    frame_interval F I = ⌊F * I⌋ ∧
      (F * I < 1 → frame_interval F I = 0 ∧
        ∀ N : ℕ, 0 < N →
          sampler_loop (frame_interval F I) 0 N = Except.error "ZeroDivisionError") := by
  have h0 : 0 ≤ F * I := mul_nonneg hF hI
  have hfloor : frame_interval F I = ⌊F * I⌋ := by
    rw [frame_interval, pyInt, if_pos h0]
  refine ⟨hfloor, fun hlt => ?_⟩
  have hz : frame_interval F I = 0 := by
    rw [hfloor]
    exact Int.floor_eq_zero_iff.mpr ⟨h0, hlt⟩
  refine ⟨hz, fun N hN => ?_⟩
  rcases N with _ | n
  · exact absurd hN (by simp)
  · rw [hz]; simp [sampler_loop]

/-- C1 witness: the amended statement instantiated at `F = 0.7`, `I = 1`. -/
theorem C1_stride_trunc_witness :
    frame_interval (7 / 10) 1 = ⌊(7 / 10 : ℚ) * 1⌋ ∧ frame_interval (7 / 10) 1 = 0 :=
  ⟨(C1_stride_trunc (7 / 10) 1 (by norm_num) (by norm_num)).1,
    (((C1_stride_trunc (7 / 10) 1 (by norm_num) (by norm_num)).2) (by norm_num)).1⟩

/-! ### Claim C2 -/

/-- C2 counterexample: with stride 3 and a stream of 10 frames the sampler
extracts frames 0, 3, 6 and 9 — four frames — while `⌊10 / 3⌋ = 3`. -/
theorem C2_floor_counterexample :
    sampler_loop 3 0 10 = Except.ok [0, 3, 6, 9] ∧
    (sampler_loop 3 0 10).map List.length = Except.ok 4 ∧
    (10 : ℕ) / 3 = 3 ∧ (4 : ℕ) ≠ 10 / 3 := by
  refine ⟨rfl, rfl, rfl, by decide⟩

/-- C2 amended: for a decoded stream of exactly `N` frames and a stride
`s ≥ 1`, the Frame Sampler writes exactly `⌈N / s⌉ = (N + s - 1) / s`
sampled frames (one record per write), which equals `⌊N / s⌋` only when
`s` divides `N`. -/
theorem C2_sample_count (s N : ℕ) (hs : 1 ≤ s) :
    (sampler_loop (s : ℤ) 0 N).map List.length = Except.ok ((N + s - 1) / s) := by
  have hsZ : (s : ℤ) ≠ 0 := by
    exact_mod_cast Nat.one_le_iff_ne_zero.mp hs
  rw [sampler_loop_filter (s : ℤ) hsZ N 0]
  show Except.ok ((List.range' 0 N).filter (hitsStride (s : ℤ))).length =
    Except.ok ((N + s - 1) / s)
  have hrange : List.range' 0 N = List.range N := (List.range_eq_range' N).symm
  rw [hrange, ← List.countP_eq_length_filter]
  rcases N with _ | M
  · simp only [List.range_zero, List.countP_nil]
    exact congrArg Except.ok (Nat.div_eq_of_lt (show 0 + s - 1 < s by omega)).symm
  · rw [countP_range_succ_multiples s M]
    have harith : M + 1 + s - 1 = M + s := by omega
    rw [harith, Nat.add_div_right M (by omega : 0 < s)]

/-- C2 witness: the amended count at stride 3 over 10 frames is 4. -/
theorem C2_sample_count_witness :
    (sampler_loop ((3 : ℕ) : ℤ) 0 10).map List.length = Except.ok ((10 + 3 - 1) / 3) ∧
    (10 + 3 - 1) / 3 = 4 :=
  ⟨C2_sample_count 3 10 (by decide), by decide⟩

/-! ## Mock Inference Service (`simspec_test_harness.py` lines 14–82)

Wall-clock measurements are oracle parameters: `initService` receives the
measured model-load time and `analyze_image` the measured per-inference
elapsed milliseconds (the value `inference_time * 1000` of line 54). -/

structure MockLeapService where
  initialized : Bool
  model_load_time : ℚ
deriving DecidableEq

/-- Model of `MockLeapService.initialize` (lines 24–34): marks the service
initialized and records the measured load time. -/
def initService (_svc : MockLeapService) (measured_load_time : ℚ) : MockLeapService :=
  ⟨true, measured_load_time⟩

/-- The sentinel returned by `analyze_image` before initialization
(line 42). -/
def sentinel_error : String := "Error: LEAP SDK not initialized"

/-- Canned response for "overall"/"system" prompts (line 59). -/
def resp_overall : String :=
  "This image shows a large industrial pipe flange assembly with multiple bolt connections. The system appears to be part of a pressure vessel or piping network with metallic components."

/-- Canned response for "component"/"mechanical" prompts (line 61). -/
def resp_component : String :=
  "The main component is a flanged pipe connection with approximately 8-12 bolts arranged in a circular pattern. The flange appears to be a raised-face type with gasket sealing surface."

/-- Canned response for "connection"/"bolts" prompts (line 63). -/
def resp_connections : String :=
  "The connection points consist of high-strength bolts with hex nuts, likely Grade 8 or similar. The bolts appear to be in tension loading configuration with visible thread engagement."

/-- Canned response for "surface"/"condition" prompts (line 65). -/
def resp_condition : String :=
  "Surface shows signs of light corrosion and weathering typical of outdoor industrial environments. Some bolt heads show minor rust staining but no significant structural deterioration is visible."

/-- Canned response for "summary"/"function" prompts (line 67). -/
def resp_summary : String :=
  "This flanged connection appears to be functioning within normal parameters. The slight surface corrosion suggests routine maintenance inspection is recommended, particularly for gasket integrity and bolt torque verification."

/-- Fallback response of line 82. -/
def resp_fallback : String := "Unable to analyze this aspect of the component."

/-- Model of `MockLeapService._generate_mock_response` (lines 56–82):
first-match-wins keyword dispatch on the lowercased prompt.  The
`_image_path` argument is accepted and ignored, as in the source. -/
def generate_mock_response (prompt _image_path : String) : String :=
  if pyInStr "overall" (pyLower prompt) || pyInStr "system" (pyLower prompt) then
    resp_overall
  else if pyInStr "component" (pyLower prompt) || pyInStr "mechanical" (pyLower prompt) then
    resp_component
  else if pyInStr "connection" (pyLower prompt) || pyInStr "bolts" (pyLower prompt) then
    resp_connections
  else if pyInStr "surface" (pyLower prompt) || pyInStr "condition" (pyLower prompt) then
    resp_condition
  else if pyInStr "summary" (pyLower prompt) || pyInStr "function" (pyLower prompt) then
    resp_summary
  else
    resp_fallback

/-- Model of `MockLeapService.analyze_image` (lines 36–54): returns the
sentinel with zero elapsed time when uninitialized, otherwise the canned
response with the measured elapsed milliseconds. -/
def analyze_image (svc : MockLeapService) (image_path prompt : String)
    (elapsed_ms : ℚ) : String × ℚ :=
  if svc.initialized = false then (sentinel_error, 0)
  else (generate_mock_response prompt image_path, elapsed_ms)

/-! ## Category Classifier (`ContextInterpreter.get_analysis_type`, lines 87–100) -/

/-- Category string returned for fastener/bolt/screw responses (line 92). -/
def cat_fatigue : String := "Fatigue Analysis, Stress Concentration"

/-- Category string returned for weld responses (line 94). -/
def cat_crack : String := "Crack Propagation, Residual Stress Analysis"

/-- Category string returned for corrosion/rust responses (line 96). -/
def cat_life : String := "Remaining Life Assessment, Material Degradation Study"

/-- Category string returned for pipe/flange responses (line 98). -/
def cat_fluid : String := "Fluid Dynamics, Pressure Drop Analysis"

/-- Default category string (line 100). -/
def cat_general : String := "General Structural Analysis"

/-- Model of `ContextInterpreter.get_analysis_type` (lines 87–100):
case-insensitive substring search over the response, first match wins. -/
def get_analysis_type (ai_response : String) : String :=
  let lowercased_response := pyLower ai_response
  if pyInStr "fastener" lowercased_response || pyInStr "bolt" lowercased_response ||
      pyInStr "screw" lowercased_response then
    cat_fatigue
  else if pyInStr "weld" lowercased_response then
    cat_crack
  else if pyInStr "corrosion" lowercased_response || pyInStr "rust" lowercased_response then
    cat_life
  else if pyInStr "pipe" lowercased_response || pyInStr "flange" lowercased_response then
    cat_fluid
  else
    cat_general

/-- Transcription of the classifier contract of spec section 4.3 (the
five-step priority list), stated from the spec's words so claim C3 can
compare the code's classifier against it. -/
def classifier_spec_order (response : String) : String :=
  let t := pyLower response
  if pyInStr "fastener" t || pyInStr "bolt" t || pyInStr "screw" t then
    cat_fatigue
  else if pyInStr "weld" t then
    cat_crack
  else if pyInStr "corrosion" t || pyInStr "rust" t then
    cat_life
  else if pyInStr "pipe" t || pyInStr "flange" t then
    cat_fluid
  else
    cat_general

/-! ## Question Generator (`QuestionGenerator`, lines 102–130) -/

structure QuestionData where
  question : String
  options : List String
deriving DecidableEq

/-- The static `questions_map` of lines 105–122, as an ordered association
list (Python dicts iterate in insertion order). -/
def questions_map : List (String × QuestionData) :=
  [(cat_fatigue,
    ⟨"What is the primary loading condition for these fasteners?",
     ["Static Tension", "Cyclic (Vibration)", "Shear", "Unknown"]⟩),
   (cat_crack,
    ⟨"What welding process was likely used?",
     ["MIG/GMAW", "TIG/GTAW", "Stick/SMAW", "Unknown"]⟩),
   (cat_life,
    ⟨"What is the operational environment?",
     ["Dry, Indoor", "Humid, Outdoor", "Marine/Salt-Spray", "Chemical Exposure"]⟩),
   (cat_fluid,
    ⟨"What is the typical operating pressure?",
     ["Low (< 50 psi)", "Medium (50-500 psi)", "High (> 500 psi)", "Unknown"]⟩)]

/-- The lookup loop of `generate_question` (lines 127–129): first entry
whose key's part before the first comma, stripped, is a substring of the
analysis type. -/
def find_question (analysis_type : String) : List (String × QuestionData) → Option QuestionData
  | [] => none
  | (key, question_data) :: rest =>
    if pyInStr (pyStrip ((pySplit key ",").headD "")) analysis_type then
      some question_data
    else
      find_question analysis_type rest

/-- Model of `QuestionGenerator.generate_question` (lines 124–130). -/
def generate_question (analysis_type : String) : Option QuestionData :=
  find_question analysis_type questions_map

/-! ## Analysis Runner (`run_progressive_analysis_test`, lines 132–223) -/

/-- The five progressive prompts of lines 143–149, in source order. -/
def prompts : List String :=
  ["Describe the overall system or machine in this image.",
   "Identify the main mechanical component in the center of the image.",
   "Focus on the connection points. Are there bolts, welds, or clamps?",
   "Describe the surface condition. Is there evidence of wear, corrosion, or damage?",
   "Provide a summary of the component\x27s likely function and condition."]

/-- The frames directory constant of line 152. -/
def frames_dir : String := "extracted_frames"

/-- One `analysis_result` record (lines 186–193). -/
structure AnalysisStep where
  step : ℕ
  prompt : String
  response : String
  inference_time_ms : ℚ
  analysis_type : String
  generated_question : Option QuestionData
deriving DecidableEq

/-- One `frame_results` record (lines 172–176, 195). -/
structure FrameResult where
  frame : String
  timestamp : String
  analyses : List AnalysisStep
deriving DecidableEq

/-- The serialized top-level JSON document (lines 209–214). -/
structure RunReport where
  model_load_time_s : ℚ
  total_frames_analyzed : ℕ
  prompts_per_frame : ℕ
  results : List FrameResult
deriving DecidableEq

/-- The abort-or-complete outcome of one invocation of
`run_progressive_analysis_test`: the two documented printed-message aborts
(lines 154 and 159), the unhandled `IndexError` escaping from line 167,
or a completed run with its serialized report. -/
inductive RunOutcome where
  | missingDir
  | noFrames
  | indexError
  | ok (report : RunReport)
deriving DecidableEq

/-- The body of the per-prompt loop (lines 179–195): one analysis, one
classification, one question lookup, assembled into an `AnalysisStep`.
`i` is the 0-based loop index of line 179 and `elapsed_ms` the measured
inference time for this call. -/
def run_step (svc : MockLeapService) (frame_path prompt : String) (i : ℕ)
    (elapsed_ms : ℚ) : AnalysisStep :=
  let r := analyze_image svc frame_path prompt elapsed_ms
  let analysis_type := get_analysis_type r.1
  ⟨i + 1, prompt, r.1, r.2, analysis_type, generate_question analysis_type⟩

/-- The timestamp-label extraction of line 167:
`frame_file.split('_t')[1].split('s.jpg')[0] + 's'`.  `none` models the
`IndexError` raised by `[1]` when the name contains no `"_t"`. -/
def frame_timestamp (frame_file : String) : Option String :=
  match pySplit frame_file "_t" with
  | _ :: second :: _ => some ((pySplit second "s.jpg").headD "" ++ "s")
  | _ => none

/-- The body of the per-frame loop (lines 165–204): path join, timestamp
extraction, then the five prompts in order.  `clock` maps each
`(frame_path, prompt)` call to its measured elapsed milliseconds. -/
def run_frame (svc : MockLeapService) (clock : String → String → ℚ)
    (frame_file : String) : Option FrameResult :=
  let frame_path := frames_dir ++ "/" ++ frame_file
  match frame_timestamp frame_file with
  | none => none
  | some ts =>
    some ⟨frame_file, ts,
      prompts.enum.map (fun ip => run_step svc frame_path ip.2 ip.1 (clock frame_path ip.2))⟩

/-- The frame loop over all files (lines 165–204), stopping at the first
frame whose timestamp extraction raises. -/
def run_frames (svc : MockLeapService) (clock : String → String → ℚ) :
    List String → Option (List FrameResult)
  | [] => some []
  | f :: fs =>
    match run_frame svc clock f with
    | none => none
    | some fr =>
      match run_frames svc clock fs with
      | none => none
      | some rest => some (fr :: rest)

/-- Model of `run_progressive_analysis_test` (lines 132–223):
service initialization, directory and emptiness checks (lines 153–160),
the sorted `.jpg` listing of line 157, the frame loop, and the serialized
report of lines 208–214.  `dir_exists` abstracts `os.path.exists`,
`listing` abstracts `os.listdir`, and the two rational oracles carry the
measured wall-clock durations. -/
def run_test (measured_load_time : ℚ) (clock : String → String → ℚ)
    (dir_exists : Bool) (listing : List String) : RunOutcome :=
  let svc := initService ⟨false, 0⟩ measured_load_time
  if dir_exists = false then RunOutcome.missingDir
  else
    let frame_files := pySorted (listing.filter (fun f => pyEndsWith f ".jpg"))
    if frame_files = [] then RunOutcome.noFrames
    else
      match run_frames svc clock frame_files with
      | none => RunOutcome.indexError
      | some results =>
        RunOutcome.ok ⟨svc.model_load_time, frame_files.length, prompts.length, results⟩

/-! ## Report Generator (`generate_report.py`)

Only the computations named by the claims are embedded: the pooled
inference-time list (lines 42–48), the mobile projection and its verdict
(lines 60–66), and the recommendation block choice (lines 126–132). -/

/-- Model of `statistics.mean` on rationals. -/
def stats_mean (l : List ℚ) : ℚ := l.sum / l.length

/-- The pooled list `all_inference_times` of lines 42–47: all
`inference_time_ms` values across every (frame, step) pair, in order. -/
def all_inference_times (report : RunReport) : List ℚ :=
  (report.results.map (fun fr => fr.analyses.map (fun a => a.inference_time_ms))).flatten

/-- The constant `mobile_multiplier = 2.5` of line 60. -/
def mobile_multiplier : ℚ := 5 / 2

/-- `projected_mobile_avg` of line 61. -/
def projected_mobile_avg (times : List ℚ) : ℚ :=
  stats_mean times * mobile_multiplier

/-- The throttle-target verdict printed at line 66. -/
def throttle_line (times : List ℚ) : String :=
  if projected_mobile_avg times < 3000 then "✅ YES" else "❌ NO"

/-- Header of the recommendation block chosen at lines 126–132. -/
def recommendation_block (times : List ℚ) : String :=
  if 3000 < projected_mobile_avg times then "⚠️  Performance Optimization Needed:"
  else "✅ Performance looks good for mobile deployment"

/-! ### Claim C3 -/

/-- C3: the Category Classifier is a total function agreeing with the
spec's five-step priority order (refinement against
`classifier_spec_order`), its output is always one of the five fixed
category strings, and a response containing both "bolt" and "weld"
classifies as the fastener category, not the weld category. -/
theorem C3_classifier_total_priority (s : String) :
    get_analysis_type s = classifier_spec_order s ∧
    (get_analysis_type s = cat_fatigue ∨ get_analysis_type s = cat_crack ∨
      get_analysis_type s = cat_life ∨ get_analysis_type s = cat_fluid ∨
      get_analysis_type s = cat_general) ∧
    get_analysis_type "Both a bolt and a weld are visible." = cat_fatigue := by
  refine ⟨rfl, ?_, rfl⟩
  simp only [get_analysis_type]
  split_ifs <;> simp

/-! ### Claim C4 -/

/-- C4: the Question Generator returns a (fixed) question with its ordered
option list for exactly the four non-default classifier categories and
returns `none` for the default category. -/
theorem C4_question_exactly_four :
    generate_question cat_fatigue =
      some ⟨"What is the primary loading condition for these fasteners?",
        ["Static Tension", "Cyclic (Vibration)", "Shear", "Unknown"]⟩ ∧
    generate_question cat_crack =
      some ⟨"What welding process was likely used?",
        ["MIG/GMAW", "TIG/GTAW", "Stick/SMAW", "Unknown"]⟩ ∧
    generate_question cat_life =
      some ⟨"What is the operational environment?",
        ["Dry, Indoor", "Humid, Outdoor", "Marine/Salt-Spray", "Chemical Exposure"]⟩ ∧
    generate_question cat_fluid =
      some ⟨"What is the typical operating pressure?",
        ["Low (< 50 psi)", "Medium (50-500 psi)", "High (> 500 psi)", "Unknown"]⟩ ∧
    generate_question cat_general = none :=
  ⟨rfl, rfl, rfl, rfl, rfl⟩

/-! ### Claim C5 -/

/-- C5: for a report whose pooled inference-time list is non-empty, the
printed mobile projection is the pooled mean times 2.5, and the printed
throttle verdict is the pass string exactly when that product is strictly
below 3000 ms. -/
theorem C5_mobile_projection (r : RunReport) (_h : all_inference_times r ≠ []) :
    projected_mobile_avg (all_inference_times r) =
      stats_mean (all_inference_times r) * (5 / 2) ∧
    (throttle_line (all_inference_times r) = "✅ YES" ↔
      stats_mean (all_inference_times r) * (5 / 2) < 3000) := by
  refine ⟨rfl, ?_⟩
  unfold throttle_line
  split_ifs with hc
  · simp only [true_iff]
    exact hc
  · constructor
    · intro hstr
      exact absurd hstr (by decide)
    · intro hlt
      exact absurd hlt hc

/-- C5 witness: a one-step report with a single 1000 ms measurement. -/
theorem C5_mobile_projection_witness :
    all_inference_times ⟨1, 1, 1, [⟨"f.jpg", "0.0s", [⟨1, "p", "r", 1000, cat_general, none⟩]⟩]⟩ ≠ [] ∧
    (throttle_line (all_inference_times
        ⟨1, 1, 1, [⟨"f.jpg", "0.0s", [⟨1, "p", "r", 1000, cat_general, none⟩]⟩]⟩) = "✅ YES" ↔
      stats_mean (all_inference_times
        ⟨1, 1, 1, [⟨"f.jpg", "0.0s", [⟨1, "p", "r", 1000, cat_general, none⟩]⟩]⟩) * (5 / 2) < 3000) :=
  ⟨by decide,
   (C5_mobile_projection ⟨1, 1, 1, [⟨"f.jpg", "0.0s", [⟨1, "p", "r", 1000, cat_general, none⟩]⟩]⟩
     (by decide)).2⟩

/-! ### Claim C6 -/

/-- C6 counterexample: at pooled mean 1200 ms the projection is exactly
3000, the verdict printed at line 66 is the fail string, yet the
recommendation block printed at line 132 is the "looks good" one — so the
recommendation is not chosen by the verdict at the boundary. -/
theorem C6_boundary_counterexample :
    projected_mobile_avg [1200] = 3000 ∧
    throttle_line [1200] = "❌ NO" ∧
    recommendation_block [1200] = "✅ Performance looks good for mobile deployment" := by
  have hproj : projected_mobile_avg [1200] = 3000 := by
    unfold projected_mobile_avg stats_mean mobile_multiplier
    norm_num
  refine ⟨hproj, ?_, ?_⟩
  · unfold throttle_line
    rw [hproj, if_neg (lt_irrefl 3000)]
  · unfold recommendation_block
    rw [hproj, if_neg (lt_irrefl 3000)]

/-- C6 amended: the recommendation block is chosen by comparing the
projection against 3000 with `>` while the verdict uses `<`; whenever the
projection is not exactly 3000 the block does agree with the pass/fail
verdict, and at the boundary the "looks good" block is printed despite a
fail verdict (see the counterexample). -/
theorem C6_recommendation_agrees_off_boundary (times : List ℚ)
    (h : projected_mobile_avg times ≠ 3000) :
    (recommendation_block times = "⚠️  Performance Optimization Needed:" ↔
      throttle_line times = "❌ NO") ∧
    (recommendation_block times = "✅ Performance looks good for mobile deployment" ↔
      throttle_line times = "✅ YES") := by
  unfold recommendation_block throttle_line
  rcases lt_trichotomy (projected_mobile_avg times) 3000 with hlt | heq | hgt
  · rw [if_neg (by linarith : ¬ (3000 : ℚ) < projected_mobile_avg times), if_pos hlt]
    constructor <;> constructor <;> intro hx <;> first | rfl | exact absurd hx (by decide)
  · exact absurd heq h
  · rw [if_pos hgt, if_neg (by linarith : ¬ projected_mobile_avg times < 3000)]
    constructor <;> constructor <;> intro hx <;> first | rfl | exact absurd hx (by decide)

/-- C6 witness: at pooled mean 2000 ms the projection is 5000 ≠ 3000 and
the optimization block accompanies the fail verdict. -/
theorem C6_recommendation_witness :
    projected_mobile_avg [2000] ≠ 3000 ∧
    (recommendation_block [2000] = "⚠️  Performance Optimization Needed:" ↔
      throttle_line [2000] = "❌ NO") := by
  have h : projected_mobile_avg [2000] ≠ 3000 := by
    unfold projected_mobile_avg stats_mean mobile_multiplier
    norm_num
  exact ⟨h, (C6_recommendation_agrees_off_boundary [2000] h).1⟩

/-! ### Claim C7 -/

/-- C7: calling `analyze_image` before initialization yields the sentinel
error string with zero elapsed time; the runner's per-prompt step turns
that result into an ordinary `AnalysisStep` (default category, no
question), and the per-frame loop still completes — the run is not
aborted. -/
theorem C7_uninitialized_sentinel (lt t : ℚ) (path prompt : String) (i : ℕ)
    (clock : String → String → ℚ) :
    analyze_image ⟨false, lt⟩ path prompt t = (sentinel_error, 0) ∧
    run_step ⟨false, lt⟩ path prompt i t =
      ⟨i + 1, prompt, sentinel_error, 0, cat_general, none⟩ ∧
    (run_frame ⟨false, lt⟩ clock "frame_000_t0.0s.jpg").isSome = true :=
  ⟨rfl, rfl, rfl⟩

/-! ### Claim C8 -/

lemma run_frames_length_mem (svc : MockLeapService) (clock : String → String → ℚ) :
    ∀ (files : List String) (res : List FrameResult),
      run_frames svc clock files = some res →
        res.length = files.length ∧
        ∀ fr ∈ res, ∃ f, run_frame svc clock f = some fr := by
  intro files
  induction files with
  | nil =>
    intro res h
    simp only [run_frames, Option.some.injEq] at h
    subst h
    simp
  | cons f fs ih =>
    intro res h
    simp only [run_frames] at h
    cases hf : run_frame svc clock f with
    | none => rw [hf] at h; exact absurd h (by simp)
    | some fr =>
      rw [hf] at h
      cases hr : run_frames svc clock fs with
      | none => rw [hr] at h; exact absurd h (by simp)
      | some rest =>
        rw [hr] at h
        simp only [Option.some.injEq] at h
        subst h
        obtain ⟨hlen, hmem⟩ := ih rest hr
        refine ⟨by simp [hlen], ?_⟩
        intro fr' hfr'
        rcases List.mem_cons.mp hfr' with rfl | hfr'
        · exact ⟨f, hf⟩
        · exact hmem fr' hfr'

lemma run_frame_analyses (svc : MockLeapService) (clock : String → String → ℚ)
    (f : String) (fr : FrameResult) (h : run_frame svc clock f = some fr) :
    fr.analyses = prompts.enum.map
      (fun ip => run_step svc (frames_dir ++ "/" ++ f) ip.2 ip.1
        (clock (frames_dir ++ "/" ++ f) ip.2)) := by
  simp only [run_frame] at h
  cases hts : frame_timestamp f with
  | none => rw [hts] at h; exact absurd h (by simp)
  | some ts =>
    rw [hts] at h
    simp only [Option.some.injEq] at h
    subst h
    rfl

lemma sum_map_analyses_five :
    ∀ l : List FrameResult, (∀ fr ∈ l, fr.analyses.length = 5) →
      (l.map (fun fr => fr.analyses.length)).sum = l.length * 5 := by
  intro l
  induction l with
  | nil => intro _; simp
  | cons fr rest ih =>
    intro h
    have hfr : fr.analyses.length = 5 := h fr (List.mem_cons_self fr rest)
    have hrest := ih (fun x hx => h x (List.mem_cons_of_mem fr hx))
    simp only [List.map_cons, List.sum_cons, List.length_cons, hfr, hrest]
    ring

/-- C8: every completed run's serialized report has `prompts_per_frame = 5`,
its total number of `AnalysisStep` entries equals
`total_frames_analyzed × prompts_per_frame`, and every frame's analyses
list has exactly five entries carrying step numbers 1..5 in prompt order. -/
theorem C8_report_invariants (measured_load_time : ℚ) (clock : String → String → ℚ)
    (listing : List String) (r : RunReport)
    (h : run_test measured_load_time clock true listing = RunOutcome.ok r) :
    (r.results.map (fun fr => fr.analyses.length)).sum =
      r.total_frames_analyzed * r.prompts_per_frame ∧
    r.prompts_per_frame = 5 ∧
    ∀ fr ∈ r.results,
      fr.analyses.length = 5 ∧
      fr.analyses.map (fun a => a.step) = [1, 2, 3, 4, 5] ∧
      fr.analyses.map (fun a => a.prompt) = prompts := by
  unfold run_test at h
  rw [if_neg (by decide : ¬ (true = false))] at h
  dsimp only [] at h
  split at h
  · exact absurd h (by simp)
  · split at h
    · exact absurd h (by simp)
    · rename_i results hrf
      simp only [RunOutcome.ok.injEq] at h
      subst h
      obtain ⟨hlen, hmem⟩ := run_frames_length_mem _ clock _ results hrf
      have hfive : ∀ fr ∈ results, fr.analyses.length = 5 ∧
          fr.analyses.map (fun a => a.step) = [1, 2, 3, 4, 5] ∧
          fr.analyses.map (fun a => a.prompt) = prompts := by
        intro fr hfr
        obtain ⟨f, hf⟩ := hmem fr hfr
        rw [run_frame_analyses _ clock f fr hf]
        exact ⟨rfl, rfl, rfl⟩
      refine ⟨?_, rfl, hfive⟩
      have hsum := sum_map_analyses_five results (fun fr hfr => (hfive fr hfr).1)
      simpa [hlen] using hsum

/-- Oracle used by the concrete witness runs: every inference is measured
at 1500 ms. -/
def demo_clock : String → String → ℚ := fun _ _ => 1500

/-- The listing used by the C8 witness run: one well-formed frame file. -/
def demo_listing : List String := ["frame_000_t0.0s.jpg"]

/-- The report the C8 witness run produces. -/
def demo_report : RunReport :=
  ⟨1, 1, 5,
    [(run_frame (initService ⟨false, 0⟩ 1) demo_clock "frame_000_t0.0s.jpg").getD ⟨"", "", []⟩]⟩

/-- C8 witness: a concrete completed run over one frame satisfies the
report invariants. -/
theorem C8_report_invariants_witness :
    run_test 1 demo_clock true demo_listing = RunOutcome.ok demo_report ∧
    (demo_report.results.map (fun fr => fr.analyses.length)).sum =
      demo_report.total_frames_analyzed * demo_report.prompts_per_frame :=
  ⟨rfl, (C8_report_invariants 1 demo_clock demo_listing demo_report rfl).1⟩

/-! ### Claim C9 -/

/-- C9: against an initialized mock service, the fifth prompt hits the
"component" keyword branch (checked before the "summary" branch) and
returns the component description rather than the fallback; every one of
the five prompts yields a response containing "bolt", so every
`AnalysisStep` of a run carries the fastener category and the single
fastener question. -/
theorem C9_every_step_fastener (lt t : ℚ) (path : String) (i : ℕ) :
    (generate_mock_response
        "Provide a summary of the component\x27s likely function and condition." path =
          resp_component ∧
      resp_component ≠ resp_fallback) ∧
    ∀ p ∈ prompts,
      pyInStr "bolt" (pyLower (generate_mock_response p path)) = true ∧
      (run_step ⟨true, lt⟩ path p i t).analysis_type = cat_fatigue ∧
      (run_step ⟨true, lt⟩ path p i t).generated_question =
        some ⟨"What is the primary loading condition for these fasteners?",
          ["Static Tension", "Cyclic (Vibration)", "Shear", "Unknown"]⟩ := by
  refine ⟨⟨rfl, by decide⟩, ?_⟩
  intro p hp
  simp only [prompts, List.mem_cons, List.not_mem_nil, or_false] at hp
  rcases hp with rfl | rfl | rfl | rfl | rfl <;> exact ⟨rfl, rfl, rfl⟩

/-- C9 witness: the property instantiated at the first prompt of the
fixed list. -/
theorem C9_every_step_fastener_witness :
    pyInStr "bolt" (pyLower (generate_mock_response
      "Describe the overall system or machine in this image." "frame.jpg")) = true ∧
    (run_step ⟨true, 0⟩ "frame.jpg"
      "Describe the overall system or machine in this image." 0 1500).analysis_type =
      cat_fatigue :=
  ⟨((C9_every_step_fastener 0 1500 "frame.jpg" 0).2
      "Describe the overall system or machine in this image."
      (List.mem_cons_self _ _)).1,
   ((C9_every_step_fastener 0 1500 "frame.jpg" 0).2
      "Describe the overall system or machine in this image."
      (List.mem_cons_self _ _)).2.1⟩

/-! ### Claim C10 -/

/-- C10: the timestamp label is computed from the filename alone — for a
sampler-style name the text between `"_t"` and `"s.jpg"` with `"s"`
appended — and for a `.jpg` file whose name contains no `"_t"` the
`split('_t')[1]` indexing raises, so the runner halts with the unhandled
`IndexError` outcome, which is neither of the two documented
printed-message aborts. -/
theorem C10_timestamp_index_error :
    frame_timestamp "frame_003_t9.0s.jpg" = some "9.0s" ∧
    pyEndsWith "badframe.jpg" ".jpg" = true ∧
    pyInStr "_t" "badframe.jpg" = false ∧
    frame_timestamp "badframe.jpg" = none ∧
    run_test 1 demo_clock true ["badframe.jpg"] = RunOutcome.indexError ∧
    RunOutcome.indexError ≠ RunOutcome.missingDir ∧
    RunOutcome.indexError ≠ RunOutcome.noFrames :=
  ⟨rfl, rfl, rfl, rfl, rfl, by decide, by decide⟩

end SimSpec
